import Mathlib

/-!
Shallow embedding of the Powenetics v2 power-measurement driver
(`src/lib.rs` of KIT-OSGroup/powenetics-v2) and proofs about it.

Modelling conventions:
* Machine integers become `Nat` with explicit `% 2^w` where the Rust code
  can overflow (release-mode wrapping semantics).
* `SystemTime` becomes `Nat`, milliseconds since the Unix epoch; the value
  `0` encodes `SystemTime::UNIX_EPOCH`, the "no prior sample" sentinel.
* The serial port becomes a `Port` record holding the bytes written so far
  and the bytes the device has made available for reading (`pending`,
  i.e. what `bytes_to_read`/`read_exact` operate on).
* Fallible `&mut self` methods return `Except PoweneticsError Unit`
  together with the post-state, since Rust keeps the mutated state even
  when an `Err` is returned.
* Subscriber callbacks are opaque; the measurement loop is modelled as a
  function of a finite list of `FrameInput`s, each carrying the 69 bytes
  delivered by `read_exact`, the receipt timestamp, and the outcome each
  registered callback would produce for that frame (in registration
  order).  An exhausted input list models a read failure (timeout).
* The human-readable text inside `Protocol { message }` is reproduced with
  decimal instead of `{:#04X}` hexadecimal number formatting; no claim
  depends on the message text.
-/

namespace PoweneticsV2

/-- `2^32`, the modulus of Rust `u32` arithmetic. -/
def U32 : Nat := 2 ^ 32

/-- `2^64`, the modulus of Rust `u64` arithmetic. -/
def U64 : Nat := 2 ^ 64

/-- `2^16`, the modulus of Rust `u16` arithmetic. -/
def U16 : Nat := 2 ^ 16

/-- `POWENETICS_MEASUREMENT_PACKET_SIZE` from `lib.rs`. -/
def POWENETICS_MEASUREMENT_PACKET_SIZE : Nat := 69

/-- The static 13-entry channel name table `POWENETICS_CHANNELS`. -/
def POWENETICS_CHANNELS : List String :=
  ["ATX 3.3V", "ATX 5V Standby", "ATX 12V", "ATX 5V", "EPS 12V #1",
   "ATX12VO 12V Standby", "EPS 12V #3", "EPS 12V #2", "PCIe 12V #3",
   "PCIe 12V #2", "PCIe Slot 3.3V", "PCIe Slot 12V", "PCIe 12V #1"]

/-- `POWENETICS_READY_MESSAGE = "PMD is ready!"` as its UTF-8 bytes.
`start_measurement` checks `String::from_utf8_lossy(&buf).starts_with(..)`;
for this pure-ASCII message that is equivalent to the byte-prefix test. -/
def READY_BYTES : List Nat :=
  [0x50, 0x4D, 0x44, 0x20, 0x69, 0x73, 0x20, 0x72, 0x65, 0x61, 0x64, 0x79, 0x21]

/-- The `PoweneticsError` enum of `lib.rs`.  The `SerialPort`, `Io`,
`SystemTime` and `TryFromSlice` variants drop their payloads, which the
driver only forwards. -/
inductive PoweneticsError where
  | SerialPort : PoweneticsError
  | Io : PoweneticsError
  | SystemTime : PoweneticsError
  | TryFromSlice : String → PoweneticsError
  | Subscriber : String → PoweneticsError
  | MeasurementAlreadyStarted : PoweneticsError
  | InvalidChannel : PoweneticsError
  | NoPowerOnChannel : PoweneticsError
  | NoSubscribers : PoweneticsError
  | Protocol : String → PoweneticsError
deriving DecidableEq, Repr

/-- The `Channel` struct.  `voltage : u16` (mV), `current : u32` (mA,
carries 24-bit wire values), `energy : u64`, `last_update : SystemTime`
(ms since epoch, `0` = `UNIX_EPOCH`). -/
structure Channel where
  name : String
  id : Nat
  voltage : Nat
  current : Nat
  energy : Nat
  last_update : Nat
deriving DecidableEq, Repr

/-- `Channel::power`: `self.voltage as u32 * self.current`.  The
multiplication is performed in `u32`, hence the `% U32`. -/
def Channel.power (c : Channel) : Nat :=
  (c.voltage * c.current) % U32

/-- `Channel::update_energy`.  `duration_since` fails with a
`SystemTimeError` when `time` is earlier than `last_update`;
`as_millis() as u64` truncates to 64 bits; the `u64` product and the
`+=` wrap mod `2^64`. -/
def Channel.update_energy (c : Channel) (time : Nat) :
    Except PoweneticsError Channel :=
  if c.last_update ≠ 0 then
    if time < c.last_update then
      .error .SystemTime
    else
      .ok { c with
            energy := (c.energy +
              (c.power * ((time - c.last_update) % U64)) % U64) % U64,
            last_update := time }
  else
    .ok { c with last_update := time }

/-- `Channel::reset_energy`. -/
def Channel.reset_energy (c : Channel) : Channel :=
  { c with energy := 0 }

/-- Lines 339–341 of `lib.rs`: store the freshly parsed voltage and
current into the channel, then call `update_energy` with the frame's
receipt time. -/
def sampleChannel (c : Channel) (voltage current time : Nat) :
    Except PoweneticsError Channel :=
  Channel.update_energy { c with voltage := voltage, current := current } time

/-- The `PoweneticsData` struct. -/
structure PoweneticsData where
  channels : List Channel
  last_update : Nat
deriving DecidableEq, Repr

/-- `PoweneticsData::channel_by_id`.  The source guards with
`id > self.channels.len()` and then evaluates `self.channels[id]`; for
`id` equal to the length the guard passes and the indexing panics, which
the model renders as `none`. -/
def PoweneticsData.channel_by_id (d : PoweneticsData) (id : Nat) :
    Option (Except PoweneticsError Channel) :=
  if id > d.channels.length then
    some (.error .InvalidChannel)
  else
    (d.channels.get? id).map .ok

/-- `PoweneticsData::channel_by_name`: linear scan of
`POWENETICS_CHANNELS`; first index whose name matches selects the
channel, no match yields `InvalidChannel`.  (`none` would model an index
panic; it cannot occur when `channels` has the table's length.) -/
def PoweneticsData.channel_by_name (d : PoweneticsData) (name : String) :
    Option (Except PoweneticsError Channel) :=
  match POWENETICS_CHANNELS.findIdx? (· == name) with
  | some i => (d.channels.get? i).map .ok
  | none => some (.error .InvalidChannel)

/-- The channel array built by `new`: 13 channels with the table names,
ids 0..12, zero voltage/current/energy, `last_update = UNIX_EPOCH`. -/
def newChannels : List Channel :=
  (List.range POWENETICS_CHANNELS.length).map fun i =>
    { name := POWENETICS_CHANNELS.getD i "", id := i,
      voltage := 0, current := 0, energy := 0, last_update := 0 }

/-- The `PoweneticsData` value built by `new`. -/
def newData : PoweneticsData :=
  { channels := newChannels, last_update := 0 }

/-- The serial port, reduced to what the driver observes: the bytes it
has written (in order) and the bytes the device has made available for
reading. -/
structure Port where
  written : List Nat
  pending : List Nat
deriving DecidableEq, Repr

/-- The `Powenetics` driver struct.  The subscriber list is opaque; the
model keeps only its length (`subscriptions`), with per-frame callback
outcomes supplied by `FrameInput`. -/
structure Powenetics where
  subscriptions : Nat
  data : PoweneticsData
  port : Port
  started : Bool
deriving DecidableEq, Repr

/-- Big-endian 16-bit value from two bytes (`u16::from_be_bytes`). -/
def be16 (b0 b1 : Nat) : Nat := b0 * 256 + b1

/-- Big-endian 24-bit value from three bytes, as read by the loop via
`u32::from_be_bytes([0, b0, b1, b2])`. -/
def be24 (b0 b1 b2 : Nat) : Nat := b0 * 65536 + b1 * 256 + b2

/-- Byte `i` of a buffer (defaulting to 0 past the end; the loop only
reads within the 69 bytes `read_exact` guarantees). -/
def byteAt (buf : List Nat) (i : Nat) : Nat := buf.getD i 0

/-- `reference.to_be_bytes()` for a `u32`. -/
def u32be (n : Nat) : List Nat :=
  [n / 2 ^ 24 % 256, n / 2 ^ 16 % 256, n / 2 ^ 8 % 256, n % 256]

/-- Message of the sequence-mismatch `Protocol` error. -/
def seqMismatchMsg (expected received : Nat) : String :=
  "expected sequence " ++ toString expected ++ ", received " ++ toString received

/-- Message of the frame-header / calibration-response `Protocol` error
(`expected [0xCA, 0xAC], received ...`). -/
def headerMismatchMsg (b0 b1 : Nat) : String :=
  "expected [0xCA, 0xAC], received [" ++ toString b0 ++ ", " ++ toString b1 ++ "]"

/-- Message of the calibration byte-count `Protocol` error. -/
def countMismatchMsg (n : Nat) : String :=
  "expected 2 bytes, received " ++ toString n

/-- Message of the ready-message `Protocol` error. -/
def notReadyMsg (buf : List Nat) : String :=
  "expected \"PMD is ready!\", received " ++ toString buf

/-- `Powenetics::calibrate`.  Returns the `Result` together with the
post-state.  The writes `[0xCA]`, `[channel.id]`,
`&reference.to_be_bytes()[1..]` are modelled as one concatenated
append.  The device's reply to the command is whatever `pending` holds
after the 1 ms sleep. -/
def Powenetics.calibrate (p : Powenetics) (channelId reference : Nat) :
    Except PoweneticsError Unit × Powenetics :=
  if p.started then
    (.error .MeasurementAlreadyStarted, p)
  else
    let p1 := { p with port := { p.port with
      written := p.port.written ++ (0xCA :: channelId :: (u32be reference).drop 1) } }
    let n := p1.port.pending.length
    if n ≠ 0 then
      if n = 2 then
        let buf := p1.port.pending.take 2
        let p2 := { p1 with port := { p1.port with pending := p1.port.pending.drop 2 } }
        if buf = [0xCA, 0xAC] then
          (.error .NoPowerOnChannel, p2)
        else
          (.error (.Protocol (headerMismatchMsg (byteAt buf 0) (byteAt buf 1))), p2)
      else
        (.error (.Protocol (countMismatchMsg n)), p1)
    else
      (.ok (), p1)

/-- `Powenetics::reset_calibration`. -/
def Powenetics.reset_calibration (p : Powenetics) :
    Except PoweneticsError Unit × Powenetics :=
  if p.started then
    (.error .MeasurementAlreadyStarted, p)
  else
    (.ok (), { p with port := { p.port with
      written := p.port.written ++ [0xCA, 0xAC, 0xBD, 0x00] } })

/-- `Powenetics::finalize_calibration`. -/
def Powenetics.finalize_calibration (p : Powenetics) :
    Except PoweneticsError Unit × Powenetics :=
  if p.started then
    (.error .MeasurementAlreadyStarted, p)
  else
    (.ok (), { p with port := { p.port with
      written := p.port.written ++ [0xCA, 0xAC, 0xBD, 0x01] } })

/-- One frame of environment input to the measurement loop: the 69 bytes
`read_exact` delivers, the `SystemTime::now()` at receipt, and the
outcome each registered subscriber callback produces for this frame, in
registration order (`Except.error` models a callback returning `Err`,
its payload the `anyhow` message). -/
structure FrameInput where
  bytes : List Nat
  time : Nat
  subResults : List (Except String Bool)

/-- The subscriber dispatch loop (lines 344–351): fold over the
callbacks in registration order, OR-ing the stop votes; a callback
error is wrapped as `PoweneticsError::Subscriber` and aborts the fold.
The returned `Nat` counts how many callbacks were invoked. -/
def dispatchSubs : List (Except String Bool) → Bool → Nat →
    Nat × Except PoweneticsError Bool
  | [], stop, n => (n, .ok stop)
  | .error e :: _, _, n => (n + 1, .error (.Subscriber e))
  | .ok b :: rest, stop, n => dispatchSubs rest (b || stop) (n + 1)

/-- The per-channel half of the loop body (lines 326–342): walk the
channel array with its index, parse voltage (bytes `offset..offset+2`)
and current (bytes `offset+2..offset+5` with a leading zero byte) at
`offset = 4 + i * 5`, store them and update the energy.  On an
`update_energy` error the walk stops: earlier channels keep their
updated state, the failing channel keeps the stored voltage/current,
later channels are untouched — as with Rust's `?` inside the `for`. -/
def channelsStep (buf : List Nat) (time : Nat) :
    Nat → List Channel → Option PoweneticsError × List Channel
  | _, [] => (none, [])
  | i, c :: cs =>
      let offset := 4 + i * 5
      let voltage := be16 (byteAt buf offset) (byteAt buf (offset + 1))
      let current := be24 (byteAt buf (offset + 2)) (byteAt buf (offset + 3))
        (byteAt buf (offset + 4))
      match sampleChannel c voltage current time with
      | .error e => (some e, { c with voltage := voltage, current := current } :: cs)
      | .ok c2 =>
          let r := channelsStep buf time (i + 1) cs
          (r.1, c2 :: r.2)

/-- The body of `Powenetics::wait`'s `loop`, iterated over the finite
list of frames the environment delivers.  An empty list models
`read_exact` failing (timeout); a frame with the wrong byte count
likewise.  Returns the loop's `Result` and the final `PoweneticsData`. -/
def waitLoop (seq : Nat) (d : PoweneticsData) :
    List FrameInput → Except PoweneticsError Unit × PoweneticsData
  | [] => (.error .Io, d)
  | f :: rest =>
      if f.bytes.length ≠ POWENETICS_MEASUREMENT_PACKET_SIZE then
        (.error .Io, d)
      else
        let d1 := { d with last_update := f.time }
        if f.bytes.take 2 ≠ [0xCA, 0xAC] then
          (.error (.Protocol (headerMismatchMsg (byteAt f.bytes 0) (byteAt f.bytes 1))), d1)
        else
          let seqReceived := be16 (byteAt f.bytes 2) (byteAt f.bytes 3)
          if seq ≠ seqReceived then
            (.error (.Protocol (seqMismatchMsg seq seqReceived)), d1)
          else
            match channelsStep f.bytes f.time 0 d1.channels with
            | (some e, cs) => (.error e, { d1 with channels := cs })
            | (none, cs) =>
                let d2 := { d1 with channels := cs }
                match dispatchSubs f.subResults false 0 with
                | (_, .error e) => (.error e, d2)
                | (_, .ok stop) =>
                    if stop then (.ok (), d2)
                    else waitLoop ((seq + 1) % U16) d2 rest

/-- `Powenetics::wait`: refuse an empty subscriber list, else run the
loop with the expected sequence starting at 1. -/
def Powenetics.wait (p : Powenetics) (frames : List FrameInput) :
    Except PoweneticsError Unit × Powenetics :=
  if p.subscriptions = 0 then
    (.error .NoSubscribers, p)
  else
    let r := waitLoop 1 p.data frames
    (r.1, { p with data := r.2 })

/-- Tail of `start_measurement` (lines 277–283): write the start command
`[0xCA, 0xAC, 0xBD, 0x90]`, set `started`, and enter `wait`. -/
def startCmdAndWait (p : Powenetics) (frames : List FrameInput) :
    Except PoweneticsError Unit × Powenetics :=
  Powenetics.wait
    { p with
      port := { p.port with written := p.port.written ++ [0xCA, 0xAC, 0xBD, 0x90] },
      started := true }
    frames

/-- `Powenetics::start_measurement`: guard on `started`, run
`finalize_calibration`, drain and check any pending bytes against the
ready message, then write the start command, set `started := true` and
block in `wait`. -/
def Powenetics.start_measurement (p : Powenetics) (frames : List FrameInput) :
    Except PoweneticsError Unit × Powenetics :=
  if p.started then
    (.error .MeasurementAlreadyStarted, p)
  else
    match p.finalize_calibration with
    | (.error e, p1) => (.error e, p1)
    | (.ok _, p1) =>
        let pending := p1.port.pending
        if pending.length ≠ 0 then
          let p2 := { p1 with port := { p1.port with pending := [] } }
          if READY_BYTES.isPrefixOf pending then
            startCmdAndWait p2 frames
          else
            (.error (.Protocol (notReadyMsg pending)), p2)
        else
          startCmdAndWait p1 frames

/-- `Powenetics::subscribe` (the model tracks only the count). -/
def Powenetics.subscribe (p : Powenetics) : Powenetics :=
  { p with subscriptions := p.subscriptions + 1 }

/-- The `Powenetics` value built by `new`, over a given port. -/
def newPowenetics (port : Port) : Powenetics :=
  { subscriptions := 0, data := newData, port := port, started := false }

/-! Concrete inputs used to exercise the model. -/

/-- A fresh driver on an idle port. -/
def pFresh : Powenetics := newPowenetics { written := [], pending := [] }

/-- A fresh driver with one registered subscriber. -/
def pOneSub : Powenetics := { pFresh with subscriptions := 1 }

/-- A fresh driver whose measurement has already started. -/
def pStarted : Powenetics := { pFresh with started := true }

/-- Frame 1: sequence 1, channel 0 carries voltage 1 mV / current 1 mA,
all other channels zero; one subscriber voting "continue". -/
def frameA : FrameInput :=
  { bytes := [0xCA, 0xAC, 0x00, 0x01, 0x00, 0x01, 0x00, 0x00, 0x01] ++ List.replicate 60 0,
    time := 1000, subResults := [.ok false] }

/-- Frame 2: sequence 2, channel 0 carries voltage 2 mV / current 2 mA;
one subscriber voting "stop". -/
def frameB : FrameInput :=
  { bytes := [0xCA, 0xAC, 0x00, 0x02, 0x00, 0x02, 0x00, 0x00, 0x02] ++ List.replicate 60 0,
    time := 2000, subResults := [.ok true] }

/-- A well-formed frame with sequence 5 (wrong for a loop expecting 1). -/
def fBadSeq : FrameInput :=
  { bytes := [0xCA, 0xAC, 0x00, 0x05] ++ List.replicate 65 0,
    time := 7, subResults := [] }

/-- Byte image of a well-formed all-zero-channel frame with sequence 1. -/
def goodBytes : List Nat := [0xCA, 0xAC, 0x00, 0x01] ++ List.replicate 65 0

/-- The sequence-1 frame with one subscriber voting "continue". -/
def fGood : FrameInput := { bytes := goodBytes, time := 9, subResults := [.ok false] }

/-- The sequence-1 frame with one subscriber voting "stop". -/
def fStop : FrameInput := { bytes := goodBytes, time := 9, subResults := [.ok true] }

/-- The channel states produced by processing `goodBytes` at time 9 on
fresh channels. -/
def cs9 : List Channel := (channelsStep goodBytes 9 0 newData.channels).2

/-! Theorems. -/

/-- Helper: `update_energy` on a channel with a prior sample adds the
32-bit-truncated power times the elapsed milliseconds, mod `2^64`. -/
theorem update_energy_step (c : Channel) (t : Nat)
    (h1 : c.last_update ≠ 0) (h12 : c.last_update ≤ t)
    (hd : t - c.last_update < U64) :
    Channel.update_energy c t
      = .ok { c with
          energy := (c.energy + (c.voltage * c.current) % U32 * (t - c.last_update)) % U64,
          last_update := t } := by
  have h2 : ¬ t < c.last_update := Nat.not_lt.mpr h12
  simp [Channel.update_energy, Channel.power, h1, h2,
        Nat.mod_eq_of_lt hd, Nat.add_mod_mod]

/-- Claim C9: a channel whose `last_update` is the "no prior sample"
sentinel (`UNIX_EPOCH`, encoded 0) gets `last_update := t` and an
unchanged energy accumulator when a sample at time `t` is processed. -/
theorem C9_first_sample_baseline (c : Channel) (t : Nat)
    (h : c.last_update = 0) :
    Channel.update_energy c t = .ok { c with last_update := t } := by
  simp [Channel.update_energy, h]

/-- Witness for C9 at a concrete freshly-reset channel. -/
theorem C9_first_sample_baseline_witness :
    Channel.update_energy
        { name := "ATX 3.3V", id := 0, voltage := 5, current := 7, energy := 0, last_update := 0 } 123
      = .ok { name := "ATX 3.3V", id := 0, voltage := 5, current := 7, energy := 0, last_update := 123 } :=
  C9_first_sample_baseline _ 123 rfl

/-- Claim C4 (code bug): `channel_by_id` guards with `id > len` instead
of `id >= len`, so `id = 13` slips past the guard and the subsequent
`self.channels[13]` indexes out of bounds (modelled `none`); `id = 14`
and an unknown name do produce `InvalidChannel`. -/
theorem C4_channel_lookup_eval :
    newData.channel_by_id 13 = none
    ∧ newData.channel_by_id 14 = some (.error .InvalidChannel)
    ∧ newData.channel_by_name "bogus" = some (.error .InvalidChannel) :=
  ⟨rfl, rfl, rfl⟩

/-- Claim C2, counterexample: voltage 32768 mV (< 2^16) and current
131072 mA (< 2^24) over 1 ms add 0 to the energy, because
`Channel::power` multiplies in `u32` and 32768 × 131072 = 2^32 wraps to
0 — not `voltage × current × elapsed mod 2^64 = 2^32` as claimed. -/
theorem C2_power_overflow_counterexample :
    (32768 < 2 ^ 16 ∧ 131072 < 2 ^ 24)
    ∧ Channel.update_energy
        { name := "", id := 0, voltage := 32768, current := 131072, energy := 0, last_update := 1 } 2
      = .ok { name := "", id := 0, voltage := 32768, current := 131072, energy := 0, last_update := 2 }
    ∧ (0 : Nat) ≠ 32768 * 131072 * (2 - 1) % 2 ^ 64 :=
  ⟨⟨by norm_num, by norm_num⟩, rfl, by norm_num⟩

/-- Claim C2, amended: the product `voltage × current` is computed in
32-bit arithmetic, so the amount added to the 64-bit accumulator is
`((voltage × current) mod 2^32) × elapsed_ms`, mod `2^64`, for every
voltage below 2^16 and current below 2^24. -/
theorem C2_power_32bit_amended (c : Channel) (t : Nat)
    (_hv : c.voltage < 2 ^ 16) (_hc : c.current < 2 ^ 24)
    (h1 : c.last_update ≠ 0) (h12 : c.last_update ≤ t)
    (hd : t - c.last_update < U64) :
    Channel.update_energy c t
      = .ok { c with
          energy := (c.energy + (c.voltage * c.current) % U32 * (t - c.last_update)) % U64,
          last_update := t } :=
  update_energy_step c t h1 h12 hd

/-- Witness for C2's amended statement at concrete values. -/
theorem C2_power_32bit_amended_witness :
    Channel.update_energy
        { name := "", id := 1, voltage := 12000, current := 2000, energy := 10, last_update := 50 } 70
      = .ok { name := "", id := 1, voltage := 12000, current := 2000,
              energy := (10 + 12000 * 2000 % U32 * (70 - 50)) % U64, last_update := 70 } :=
  C2_power_32bit_amended _ 70 (by norm_num) (by norm_num) (by norm_num) (by norm_num)
    (by norm_num [U64])

/-- Claim C1, counterexample: starting from fresh channels, frame 1
(voltage 1, current 1, t1 = 1000) then frame 2 (voltage 2, current 2,
t2 = 2000) leave channel 0 with energy 4000 = voltage₂ × current₂ ×
(t2 − t1), not 0 + voltage₁ × current₁ × (t2 − t1) = 1000 as claimed:
the loop stores the new frame's values before `update_energy` runs. -/
theorem C1_second_frame_values_counterexample :
    ((Powenetics.wait pOneSub [frameA]).2.data.channels.get? 0).map Channel.energy = some 0
    ∧ ((Powenetics.wait pOneSub [frameA, frameB]).2.data.channels.get? 0).map Channel.energy = some 4000
    ∧ ((Powenetics.wait pOneSub [frameA, frameB]).2.data.channels.get? 0).map Channel.energy
        ≠ some (0 + 1 * 1 * (2000 - 1000)) :=
  ⟨rfl, rfl, by decide⟩

/-- Claim C1, amended: between two consecutive validated frames the
energy grows by voltage₂ × current₂ × (t2 − t1 in ms) — the values of
the SECOND frame (truncated as the code computes them) — because the
loop body assigns the new sample to the channel before updating the
energy. -/
theorem C1_energy_step_amended (c : Channel) (v cur t : Nat)
    (h1 : c.last_update ≠ 0) (h12 : c.last_update ≤ t)
    (hd : t - c.last_update < U64) :
    sampleChannel c v cur t
      = .ok { c with voltage := v, current := cur,
                     energy := (c.energy + v * cur % U32 * (t - c.last_update)) % U64,
                     last_update := t } := by
  have h2 : ¬ t < c.last_update := Nat.not_lt.mpr h12
  simp [sampleChannel, Channel.update_energy, Channel.power, h1, h2,
        Nat.mod_eq_of_lt hd, Nat.add_mod_mod]

/-- Witness for C1's amended statement: second-frame values (2, 2) over
1000 ms add 4000. -/
theorem C1_energy_step_amended_witness :
    sampleChannel { name := "", id := 0, voltage := 1, current := 1, energy := 0, last_update := 1000 }
        2 2 2000
      = .ok { name := "", id := 0, voltage := 2, current := 2,
              energy := (0 + 2 * 2 % U32 * (2000 - 1000)) % U64, last_update := 2000 } :=
  C1_energy_step_amended _ 2 2 2000 (by norm_num) (by norm_num) (by norm_num [U64])

/-- Claim C6: once `started` is true, `calibrate`, `reset_calibration`
and `start_measurement` all return `MeasurementAlreadyStarted` and leave
the whole driver state — port included, so no reads or writes — unchanged. -/
theorem C6_already_started_no_io (p : Powenetics) (channelId reference : Nat)
    (frames : List FrameInput) (h : p.started = true) :
    p.calibrate channelId reference = (.error .MeasurementAlreadyStarted, p)
    ∧ p.reset_calibration = (.error .MeasurementAlreadyStarted, p)
    ∧ p.start_measurement frames = (.error .MeasurementAlreadyStarted, p) := by
  refine ⟨?_, ?_, ?_⟩ <;>
    simp [Powenetics.calibrate, Powenetics.reset_calibration,
          Powenetics.start_measurement, h]

/-- Witness for C6 on a concrete started driver. -/
theorem C6_already_started_no_io_witness :
    pStarted.calibrate 0 100 = (.error .MeasurementAlreadyStarted, pStarted)
    ∧ pStarted.reset_calibration = (.error .MeasurementAlreadyStarted, pStarted)
    ∧ pStarted.start_measurement [] = (.error .MeasurementAlreadyStarted, pStarted) :=
  C6_already_started_no_io pStarted 0 100 [] rfl

/-- Claim C7: after the calibration command is written, the outcome is a
function of the pending bytes alone: none pending is success; exactly
the marker `[0xCA, 0xAC]` pending is `NoPowerOnChannel`; two other
pending bytes are a protocol error; any other nonzero pending count is a
protocol error. -/
theorem C7_calibrate_outcomes (p : Powenetics) (channelId reference : Nat)
    (h : p.started = false) :
    (p.port.pending = [] → (p.calibrate channelId reference).1 = .ok ())
    ∧ (p.port.pending = [0xCA, 0xAC] →
        (p.calibrate channelId reference).1 = .error .NoPowerOnChannel)
    ∧ (∀ b0 b1, p.port.pending = [b0, b1] → [b0, b1] ≠ [0xCA, 0xAC] →
        (p.calibrate channelId reference).1
          = .error (.Protocol (headerMismatchMsg b0 b1)))
    ∧ (p.port.pending.length ≠ 0 → p.port.pending.length ≠ 2 →
        (p.calibrate channelId reference).1
          = .error (.Protocol (countMismatchMsg p.port.pending.length))) := by
  refine ⟨fun hp => ?_, fun hp => ?_, fun b0 b1 hp hne => ?_, fun hn0 hn2 => ?_⟩
  · simp [Powenetics.calibrate, h, hp]
  · simp [Powenetics.calibrate, h, hp]
  · simp [Powenetics.calibrate, byteAt, h, hp, hne]
  · simp [Powenetics.calibrate, h, hn0, hn2]

/-- Witness for C7: the four calibration outcomes at concrete ports. -/
theorem C7_calibrate_outcomes_witness :
    (Powenetics.calibrate (newPowenetics { written := [], pending := [] }) 3 5).1 = .ok ()
    ∧ (Powenetics.calibrate (newPowenetics { written := [], pending := [0xCA, 0xAC] }) 3 5).1
        = .error .NoPowerOnChannel
    ∧ (Powenetics.calibrate (newPowenetics { written := [], pending := [1, 2] }) 3 5).1
        = .error (.Protocol (headerMismatchMsg 1 2))
    ∧ (Powenetics.calibrate (newPowenetics { written := [], pending := [7, 8, 9] }) 3 5).1
        = .error (.Protocol (countMismatchMsg 3)) :=
  ⟨(C7_calibrate_outcomes _ 3 5 rfl).1 rfl,
   (C7_calibrate_outcomes _ 3 5 rfl).2.1 rfl,
   (C7_calibrate_outcomes _ 3 5 rfl).2.2.1 1 2 rfl (by decide),
   (C7_calibrate_outcomes _ 3 5 rfl).2.2.2 (by decide) (by decide)⟩

/-- Helper: `start_measurement` on a not-yet-started driver with no
subscribers and an idle port writes the finalize-calibration command and
the start command, sets `started`, and only then fails with
`NoSubscribers` inside `wait`. -/
theorem start_measurement_no_subs (p : Powenetics) (frames : List FrameInput)
    (h1 : p.started = false) (h2 : p.subscriptions = 0)
    (h3 : p.port.pending = []) :
    p.start_measurement frames =
      (.error .NoSubscribers,
       { p with started := true,
                port := { p.port with
                          written := p.port.written
                            ++ [0xCA, 0xAC, 0xBD, 0x01, 0xCA, 0xAC, 0xBD, 0x90] } }) := by
  simp [Powenetics.start_measurement, Powenetics.finalize_calibration,
        startCmdAndWait, Powenetics.wait, h1, h2, h3]

/-- Claim C3, counterexample: a fresh driver with zero subscribers does
fail with `NoSubscribers`, but only after writing 8 bytes (the
finalize-calibration and start commands) and setting `started := true` —
not "before any I/O with state unchanged" as claimed. -/
theorem C3_no_subscribers_counterexample :
    (pFresh.start_measurement []).1 = .error .NoSubscribers
    ∧ (pFresh.start_measurement []).2.port.written
        = [0xCA, 0xAC, 0xBD, 0x01, 0xCA, 0xAC, 0xBD, 0x90]
    ∧ (pFresh.start_measurement []).2.started = true :=
  ⟨rfl, rfl, rfl⟩

/-- Claim C3, amended: with zero subscribers (and an idle port),
`start_measurement` fails with `NoSubscribers` only after writing the
finalize-calibration command and the start command, and it leaves
`started` permanently true. -/
theorem C3_no_subscribers_amended (p : Powenetics) (frames : List FrameInput)
    (h1 : p.started = false) (h2 : p.subscriptions = 0)
    (h3 : p.port.pending = []) :
    p.start_measurement frames =
      (.error .NoSubscribers,
       { p with started := true,
                port := { p.port with
                          written := p.port.written
                            ++ [0xCA, 0xAC, 0xBD, 0x01, 0xCA, 0xAC, 0xBD, 0x90] } }) :=
  start_measurement_no_subs p frames h1 h2 h3

/-- Witness for C3's amended statement on a fresh driver. -/
theorem C3_no_subscribers_amended_witness :
    pFresh.start_measurement [] =
      (.error .NoSubscribers,
       { subscriptions := 0, data := newData,
         port := { written := [0xCA, 0xAC, 0xBD, 0x01, 0xCA, 0xAC, 0xBD, 0x90], pending := [] },
         started := true }) :=
  C3_no_subscribers_amended pFresh [] rfl rfl rfl

/-- Claim C5: sequence tracking.  The expected counter starts at 1
(`wait` enters the loop as `waitLoop 1`); a received sequence (bytes
2–3, big-endian) different from the expected value yields a `Protocol`
error whose outcome is identical for every continuation of the input —
no later frame is read; on a match the loop recurses with the counter
advanced by 1 mod 2^16. -/
theorem C5_sequence_tracking :
    (∀ (p : Powenetics) (frames : List FrameInput), p.subscriptions ≠ 0 →
        p.wait frames
          = ((waitLoop 1 p.data frames).1,
             { p with data := (waitLoop 1 p.data frames).2 }))
    ∧ (∀ (seq : Nat) (d : PoweneticsData) (f : FrameInput)
          (rest rest2 : List FrameInput),
        f.bytes.length = POWENETICS_MEASUREMENT_PACKET_SIZE →
        f.bytes.take 2 = [0xCA, 0xAC] →
        be16 (byteAt f.bytes 2) (byteAt f.bytes 3) ≠ seq →
        waitLoop seq d (f :: rest)
            = (.error (.Protocol
                 (seqMismatchMsg seq (be16 (byteAt f.bytes 2) (byteAt f.bytes 3)))),
               { d with last_update := f.time })
          ∧ waitLoop seq d (f :: rest) = waitLoop seq d (f :: rest2))
    ∧ (∀ (seq : Nat) (d : PoweneticsData) (f : FrameInput)
          (rest : List FrameInput) (cs : List Channel) (n : Nat),
        f.bytes.length = POWENETICS_MEASUREMENT_PACKET_SIZE →
        f.bytes.take 2 = [0xCA, 0xAC] →
        be16 (byteAt f.bytes 2) (byteAt f.bytes 3) = seq →
        channelsStep f.bytes f.time 0 d.channels = (none, cs) →
        dispatchSubs f.subResults false 0 = (n, .ok false) →
        waitLoop seq d (f :: rest)
          = waitLoop ((seq + 1) % U16)
              { d with last_update := f.time, channels := cs } rest) := by
  refine ⟨fun p frames h => ?_,
          fun seq d f rest rest2 hlen hhdr hne => ⟨?_, ?_⟩,
          fun seq d f rest cs n hlen hhdr hseq hch hdisp => ?_⟩
  · simp [Powenetics.wait, h]
  · simp [waitLoop, hlen, hhdr, Ne.symm hne]
  · simp [waitLoop, hlen, hhdr, Ne.symm hne]
  · simp [waitLoop, hlen, hhdr, hseq, hch, hdisp]

/-- Witness for C5: starts at 1 on a one-subscriber driver; a frame with
sequence 5 when 1 is expected errors identically for any continuation;
a matching frame advances the counter to 2. -/
theorem C5_sequence_tracking_witness :
    (pOneSub.wait []
       = ((waitLoop 1 pOneSub.data []).1,
          { pOneSub with data := (waitLoop 1 pOneSub.data []).2 }))
    ∧ (waitLoop 1 newData [fBadSeq]
       = (.error (.Protocol (seqMismatchMsg 1 5)), { newData with last_update := 7 }))
    ∧ (waitLoop 1 newData [fBadSeq] = waitLoop 1 newData [fBadSeq, fBadSeq])
    ∧ (waitLoop 1 newData [fGood]
       = waitLoop ((1 + 1) % U16)
           { newData with last_update := 9, channels := cs9 } []) :=
  ⟨C5_sequence_tracking.1 pOneSub [] (by decide),
   (C5_sequence_tracking.2.1 1 newData fBadSeq [] [fBadSeq]
      (by decide) (by decide) (by decide)).1,
   (C5_sequence_tracking.2.1 1 newData fBadSeq [] [fBadSeq]
      (by decide) (by decide) (by decide)).2,
   C5_sequence_tracking.2.2 1 newData fGood [] cs9 1
      (by decide) (by decide) (by decide) rfl rfl⟩

/-- Helper: the dispatch fold over all-successful callbacks invokes each
one and ORs the votes onto the accumulator. -/
theorem dispatchSubs_all_ok (bs : List Bool) (stop : Bool) (n : Nat) :
    dispatchSubs (bs.map .ok) stop n = (n + bs.length, .ok (bs.any id || stop)) := by
  induction bs generalizing stop n with
  | nil => simp [dispatchSubs]
  | cons b bs ih =>
      simp only [List.map_cons, dispatchSubs, ih, List.any_cons, List.length_cons,
                 id_eq, Prod.mk.injEq]
      refine ⟨by omega, ?_⟩
      have hb : (bs.any id || (b || stop)) = ((b || bs.any id) || stop) := by
        cases b <;> cases stop <;> simp
      rw [hb]

/-- Helper: the dispatch fold aborts at the first failing callback,
having invoked exactly the callbacks up to and including it, and wraps
the failure as `PoweneticsError.Subscriber`. -/
theorem dispatchSubs_first_error (bs : List Bool) (e : String)
    (rest : List (Except String Bool)) (stop : Bool) (n : Nat) :
    dispatchSubs (bs.map .ok ++ .error e :: rest) stop n
      = (n + bs.length + 1, .error (.Subscriber e)) := by
  induction bs generalizing stop n with
  | nil => simp [dispatchSubs]
  | cons b bs ih =>
      simp only [List.map_cons, List.cons_append, List.length_cons, List.append_eq,
                 dispatchSubs, ih, Prod.mk.injEq, and_true]
      omega

/-- Claim C8: per validated frame, all callbacks are invoked once in
registration order with their stop votes ORed when none fails; a failing
callback aborts the dispatch immediately (later callbacks not invoked)
wrapped as the `Subscriber` error; and when the ORed vote is "stop" the
loop exits successfully after the frame. -/
theorem C8_subscriber_dispatch :
    (∀ bs : List Bool,
        dispatchSubs (bs.map .ok) false 0 = (bs.length, .ok (bs.any id)))
    ∧ (∀ (bs : List Bool) (e : String) (rest : List (Except String Bool)),
        dispatchSubs (bs.map .ok ++ .error e :: rest) false 0
          = (bs.length + 1, .error (.Subscriber e)))
    ∧ (∀ (seq : Nat) (d : PoweneticsData) (f : FrameInput)
          (rest : List FrameInput) (cs : List Channel) (n : Nat),
        f.bytes.length = POWENETICS_MEASUREMENT_PACKET_SIZE →
        f.bytes.take 2 = [0xCA, 0xAC] →
        be16 (byteAt f.bytes 2) (byteAt f.bytes 3) = seq →
        channelsStep f.bytes f.time 0 d.channels = (none, cs) →
        dispatchSubs f.subResults false 0 = (n, .ok true) →
        waitLoop seq d (f :: rest)
          = (.ok (), { d with last_update := f.time, channels := cs })) := by
  refine ⟨fun bs => ?_, fun bs e rest => ?_,
          fun seq d f rest cs n hlen hhdr hseq hch hdisp => ?_⟩
  · simpa using dispatchSubs_all_ok bs false 0
  · simpa using dispatchSubs_first_error bs e rest false 0
  · simp [waitLoop, hlen, hhdr, hseq, hch, hdisp]

/-- Witness for C8: two successful callbacks both invoked with votes
ORed; an error in the middle aborts after two invocations; a stop vote
ends the loop after the frame. -/
theorem C8_subscriber_dispatch_witness :
    dispatchSubs [.ok false, .ok true] false 0 = (2, .ok true)
    ∧ dispatchSubs [.ok false, .error "boom", .ok true] false 0
        = (2, .error (.Subscriber "boom"))
    ∧ waitLoop 1 newData [fStop]
        = (.ok (), { newData with last_update := 9, channels := cs9 }) :=
  ⟨C8_subscriber_dispatch.1 [false, true],
   C8_subscriber_dispatch.2.1 [false] "boom" [.ok true],
   C8_subscriber_dispatch.2.2 1 newData fStop [] cs9 1
     (by decide) (by decide) (by decide) rfl rfl⟩

/-- Helper: `wait` never touches the `started` flag. -/
theorem wait_started (p : Powenetics) (frames : List FrameInput) :
    (p.wait frames).2.started = p.started := by
  simp only [Powenetics.wait]
  split <;> rfl

/-- Helper: the start-command-then-wait tail always leaves `started`
true. -/
theorem startCmdAndWait_started (p : Powenetics) (frames : List FrameInput) :
    (startCmdAndWait p frames).2.started = true := by
  simp only [startCmdAndWait]
  rw [wait_started]

/-- Helper: `calibrate` never touches the `started` flag. -/
theorem calibrate_started (p : Powenetics) (channelId reference : Nat) :
    (p.calibrate channelId reference).2.started = p.started := by
  simp only [Powenetics.calibrate]
  split
  · rfl
  · split
    · split
      · split <;> rfl
      · rfl
    · rfl

/-- Helper: `reset_calibration` never touches the `started` flag. -/
theorem reset_calibration_started (p : Powenetics) :
    (p.reset_calibration).2.started = p.started := by
  simp only [Powenetics.reset_calibration]
  split <;> rfl

/-- Helper: when `start_measurement` survives the ready-message check it
sets `started` to true, whatever the loop then does. -/
theorem start_measurement_started (p : Powenetics) (frames : List FrameInput)
    (h1 : p.started = false)
    (h2 : p.port.pending = [] ∨ READY_BYTES.isPrefixOf p.port.pending = true) :
    (p.start_measurement frames).2.started = true := by
  rcases h2 with h2 | h2
  · simp [Powenetics.start_measurement, Powenetics.finalize_calibration, h1, h2,
          startCmdAndWait_started]
  · by_cases hp : p.port.pending = []
    · simp [Powenetics.start_measurement, Powenetics.finalize_calibration, h1, hp,
            startCmdAndWait_started]
    · simp [Powenetics.start_measurement, Powenetics.finalize_calibration, h1, hp, h2,
            startCmdAndWait_started]

/-- Claim C10: the `started` flag never goes from true back to false:
`wait`, `calibrate` and `reset_calibration` never change it,
`start_measurement` on a started driver keeps it true, a
`start_measurement` that reaches the streaming loop leaves it true even
when the loop fails, and in particular after the no-subscriber failure
every subsequent `calibrate`, `reset_calibration` or `start_measurement`
returns `MeasurementAlreadyStarted`. -/
theorem C10_started_monotone (p : Powenetics) (frames : List FrameInput)
    (channelId reference : Nat) :
    ((p.wait frames).2.started = p.started)
    ∧ ((p.calibrate channelId reference).2.started = p.started)
    ∧ ((p.reset_calibration).2.started = p.started)
    ∧ (p.started = true → (p.start_measurement frames).2.started = true)
    ∧ (p.started = false →
        (p.port.pending = [] ∨ READY_BYTES.isPrefixOf p.port.pending = true) →
        (p.start_measurement frames).2.started = true)
    ∧ (p.started = false → p.subscriptions = 0 → p.port.pending = [] →
        (p.start_measurement frames).1 = .error .NoSubscribers
        ∧ ((p.start_measurement frames).2.calibrate channelId reference).1
            = .error .MeasurementAlreadyStarted
        ∧ ((p.start_measurement frames).2.reset_calibration).1
            = .error .MeasurementAlreadyStarted
        ∧ ((p.start_measurement frames).2.start_measurement frames).1
            = .error .MeasurementAlreadyStarted) := by
  refine ⟨wait_started p frames, calibrate_started p channelId reference,
          reset_calibration_started p, fun h => ?_,
          fun h1 h2 => start_measurement_started p frames h1 h2,
          fun h1 h2 h3 => ?_⟩
  · simp [Powenetics.start_measurement, h]
  · rw [start_measurement_no_subs p frames h1 h2 h3]
    refine ⟨rfl, ?_, ?_, ?_⟩ <;>
      simp [Powenetics.calibrate, Powenetics.reset_calibration,
            Powenetics.start_measurement]

/-- Witness for C10 on concrete drivers: a started driver stays started;
a fresh no-subscriber driver ends up started with `NoSubscribers`, and
all three operations then refuse with `MeasurementAlreadyStarted`. -/
theorem C10_started_monotone_witness :
    ((pStarted.start_measurement []).2.started = true)
    ∧ ((pFresh.start_measurement []).2.started = true)
    ∧ ((pFresh.start_measurement []).1 = .error .NoSubscribers)
    ∧ (((pFresh.start_measurement []).2.calibrate 0 0).1
        = .error .MeasurementAlreadyStarted)
    ∧ (((pFresh.start_measurement []).2.reset_calibration).1
        = .error .MeasurementAlreadyStarted)
    ∧ (((pFresh.start_measurement []).2.start_measurement []).1
        = .error .MeasurementAlreadyStarted) :=
  ⟨(C10_started_monotone pStarted [] 0 0).2.2.2.1 rfl,
   (C10_started_monotone pFresh [] 0 0).2.2.2.2.1 rfl (Or.inl rfl),
   ((C10_started_monotone pFresh [] 0 0).2.2.2.2.2 rfl rfl rfl).1,
   ((C10_started_monotone pFresh [] 0 0).2.2.2.2.2 rfl rfl rfl).2.1,
   ((C10_started_monotone pFresh [] 0 0).2.2.2.2.2 rfl rfl rfl).2.2.1,
   ((C10_started_monotone pFresh [] 0 0).2.2.2.2.2 rfl rfl rfl).2.2.2⟩

end PoweneticsV2
